import Mathlib

/-!
Shallow embedding of the core of the `redis-enhanced` library:
the `TransactionManager` (src/core/transaction.ts) and the
`PersistenceManager` (src/core/persistence.ts), together with the error
registry (src/errors/registry/*).

Conventions of the embedding:
* async methods become pure functions threading an explicit state;
  a method call returns its result (`Except BaseError _`), the state after
  the call (JavaScript exceptions do not roll back mutations, so the state
  reflects every mutation made before a throw), and an ordered trace of the
  transport / repository calls it issued;
* the external collaborators (the redis-om `Repository` and the native
  client's `exec` / `discard`) are fields of an environment record and are
  universally quantified in the theorems;
* the native client's key space is a list of key names; `keys(pattern)` for
  the trailing-star patterns built by the code is a prefix filter;
* JavaScript numbers that matter here are integers; `NaN` is modelled as
  `none` in `Option Int`, so JS falsiness of a number is `none` or `some 0`;
* `parseInt` is modelled with its decimal semantics (radix-prefix forms are
  not produced by this code and are not modelled).
-/

namespace RedisEnhanced

/-! ## Error taxonomy (src/errors/registry) -/

/-- The closed set of error codes of the library
(src/errors/registry/error.messages.ts enumerates all of them). -/
inductive ErrorCode where
  | REDIS_CONNECTION_ERROR
  | REDIS_OPERATION_ERROR
  | REDIS_AUTH_ERROR
  | REDIS_TIMEOUT_ERROR
  | PERSISTENCE_CONFIG_ERROR
  | PERSISTENCE_OPERATION_ERROR
  | PERSISTENCE_SAVE_ERROR
  | PERSISTENCE_LOAD_ERROR
  | TRANSACTION_ERROR
  | TRANSACTION_COMMIT_ERROR
  | TRANSACTION_ROLLBACK_ERROR
  | ENTITY_NOT_FOUND
  | VALIDATION_ERROR
  | INVALID_CONFIG
  | INVALID_PARAMETER
  | SYSTEM_ERROR
  | UNEXPECTED_ERROR
deriving DecidableEq, Repr

/-- `ErrorMessages` from src/errors/registry/error.messages.ts. -/
def errorMessage : ErrorCode → String
  | .REDIS_CONNECTION_ERROR => "Failed to establish Redis connection"
  | .REDIS_OPERATION_ERROR => "Redis operation failed"
  | .REDIS_AUTH_ERROR => "Redis authentication failed"
  | .REDIS_TIMEOUT_ERROR => "Redis operation timed out"
  | .PERSISTENCE_CONFIG_ERROR => "Invalid persistence configuration"
  | .PERSISTENCE_OPERATION_ERROR => "Persistence operation failed"
  | .PERSISTENCE_SAVE_ERROR => "Failed to save data"
  | .PERSISTENCE_LOAD_ERROR => "Failed to load data"
  | .TRANSACTION_ERROR => "Transaction failed"
  | .TRANSACTION_COMMIT_ERROR => "Failed to commit transaction"
  | .TRANSACTION_ROLLBACK_ERROR => "Failed to rollback transaction"
  | .ENTITY_NOT_FOUND => "Entity not found"
  | .VALIDATION_ERROR => "Validation failed"
  | .INVALID_CONFIG => "Invalid configuration"
  | .INVALID_PARAMETER => "Invalid parameter"
  | .SYSTEM_ERROR => "System error occurred"
  | .UNEXPECTED_ERROR => "An unexpected error occurred"

/-- Category of a code: the registry derives it from the leading digit of the
code's string value; the grouping (1 redis, 2 persistence, 3 transaction,
4 validation, 5 system) is the grouping of error.messages.ts. -/
def errorCategory : ErrorCode → Nat
  | .REDIS_CONNECTION_ERROR | .REDIS_OPERATION_ERROR
  | .REDIS_AUTH_ERROR | .REDIS_TIMEOUT_ERROR => 1
  | .PERSISTENCE_CONFIG_ERROR | .PERSISTENCE_OPERATION_ERROR
  | .PERSISTENCE_SAVE_ERROR | .PERSISTENCE_LOAD_ERROR => 2
  | .TRANSACTION_ERROR | .TRANSACTION_COMMIT_ERROR
  | .TRANSACTION_ROLLBACK_ERROR | .ENTITY_NOT_FOUND => 3
  | .VALIDATION_ERROR | .INVALID_CONFIG | .INVALID_PARAMETER => 4
  | .SYSTEM_ERROR | .UNEXPECTED_ERROR => 5

/-- `ErrorRegistry.getStatusCode` (src/errors/registry/error.registry.ts). -/
def statusCode (c : ErrorCode) : Nat :=
  match errorCategory c with
  | 1 => 500
  | 2 => 500
  | 3 => if c = .ENTITY_NOT_FOUND then 404 else 500
  | 4 => 400
  | _ => 500

/-- `BaseError`: message, stable code, HTTP-style status (the structured
`details` payload carries only logging context and is not modelled). -/
structure BaseError where
  message : String
  code : ErrorCode
  status : Nat
deriving DecidableEq, Repr

/-- `ErrorRegistry.createError` (src/errors/registry/error.registry.ts). -/
def ErrorRegistry.createError (c : ErrorCode) : BaseError :=
  { message := errorMessage c, code := c, status := statusCode c }

/-- An error in flight inside a `try` block: either a typed `BaseError` or a
plain JavaScript `Error` carrying only a message. -/
inductive Err where
  | base (e : BaseError)
  | plain (msg : String)
deriving DecidableEq, Repr

/-! ## JavaScript number / string helpers -/

/-- A JS number used as an integer; `none` models `NaN`. -/
abbrev JSNum := Option Int

/-- JS truthiness of a number: `NaN` and `0` are falsy. -/
def jsNumTruthy : JSNum → Bool
  | none => false
  | some k => decide (k ≠ 0)

/-- `entity.version || 0`: an absent (or `0`) version counts as `0`. -/
def jsOrZero : Option Int → Int
  | none => 0
  | some n => n

/-- Decimal digit test, `'0' ≤ c ≤ '9'`. -/
def isDecDigit (c : Char) : Bool := decide (48 ≤ c.toNat ∧ c.toNat ≤ 57)

/-- Numeric value of a decimal digit character. -/
def digitVal (c : Char) : Nat := c.toNat - 48

/-- Value of the leading run of decimal digits, `none` when there is none
(JS `parseInt` yields `NaN` then). -/
def parseDigitRun (cs : List Char) : Option Nat :=
  match cs.takeWhile isDecDigit with
  | [] => none
  | d :: ds => some ((d :: ds).foldl (fun a c => 10 * a + digitVal c) 0)

/-- JS `parseInt(s)` on the decimal strings this code produces and reads:
skip whitespace, optional sign, leading decimal digits; `NaN` is `none`. -/
def jsParseInt (s : String) : JSNum :=
  match s.data.dropWhile Char.isWhitespace with
  | [] => none
  | c :: cs =>
    if c = '-' then (parseDigitRun cs).map (fun n => -(n : Int))
    else if c = '+' then (parseDigitRun cs).map (fun n => ((n : Nat) : Int))
    else (parseDigitRun (c :: cs)).map (fun n => ((n : Nat) : Int))

/-- Decimal digit characters of `n`, most significant first; the first
argument is fuel (`n` itself always suffices). -/
def natDecCharsAux : Nat → Nat → List Char
  | 0, _ => []
  | fuel + 1, n =>
    if n = 0 then []
    else natDecCharsAux fuel (n / 10) ++ [Nat.digitChar (n % 10)]

/-- Decimal digit characters of `n` (JS prints `0` as `"0"`). -/
def natDecChars (n : Nat) : List Char :=
  if n = 0 then ['0'] else natDecCharsAux n n

/-- Decimal rendering of a natural number, the JS `${n}` template output. -/
def natToDecString (n : Nat) : String := String.mk (natDecChars n)

/-- JS number-to-string for the integers this code prints. -/
def jsNumToString : JSNum → String
  | none => "NaN"
  | some i =>
    if i < 0 then "-" ++ natToDecString i.natAbs else natToDecString i.natAbs

/-- `s.split(" ")[0]`: the longest leading run without a space. -/
def firstWord (s : String) : String :=
  String.mk (s.data.takeWhile (fun c => c != ' '))

/-! ## Transaction manager state, environment and trace -/

/-- An entity record: the three reserved fields plus the opaque payload
(src/interfaces/entity.interface.ts). -/
structure Entity where
  version : Option Int
  lastUpdated : Option Nat
  entityId : Option String
  fields : List (String × String)
deriving DecidableEq, Repr

/-- One transport / repository call, for ordering and absence statements. -/
inductive Event where
  | keysScan (pattern : String)
  | delKeys (ks : List String)
  | repoSaveCall
  | repoFetchCall (id : String)
  | repoRemoveCall (id : String)
  | multiCall
  | execCall
  | discardCall
  | configSet (name value : String)
  | configGet (name : String)
deriving DecidableEq, Repr

/-- Mutable state of a `TransactionManager` plus the native key space it
scans and deletes from. -/
structure TMState where
  store : List String
  active : Bool
deriving DecidableEq, Repr

/-- External collaborators of a `TransactionManager`: the repository
(arbitrary behaviour, it may also touch the key space), the native client's
batch primitives, the connection status, and the current time. -/
structure TMEnv where
  schemaName : String
  connected : Bool
  repoSave : Entity → List String → Except String (Entity × Option String × List String)
  repoFetch : String → Except String (Option Entity)
  repoRemove : String → List String → Except String (List String)
  exec : Except String Unit
  discard : Except String Unit
  now : Nat

namespace TransactionManager

/-- The key pattern `"<schemaName>:<entityId>*"` built by fetch and remove. -/
def keyPattern (schemaName entityId : String) : String :=
  schemaName ++ ":" ++ entityId ++ "*"

/-- Does `k` start with the characters `pre`? -/
def charsLead : List Char → List Char → Bool
  | [], _ => true
  | _ :: _, [] => false
  | a :: as, b :: bs => a = b && charsLead as bs

/-- The native client's `keys(pattern)` for the trailing-star patterns this
code builds: every stored key that starts with the pattern minus its `*`. -/
def nativeKeys (store : List String) (pattern : String) : List String :=
  store.filter (fun k => charsLead (pattern.data.dropLast) k.data)

/-- The try-block of `TransactionManager.fetch` (transaction.ts:137-176):
scan the key pattern, fail `ENTITY_NOT_FOUND` when no key exists, otherwise
delegate to the repository and fail `ENTITY_NOT_FOUND` when it reports
absence; on success return the record merged with `entityId`. -/
def fetchTry (env : TMEnv) (s : TMState) (entityId : String) :
    Except Err Entity × List Event :=
  if env.connected = false then (.error (.plain "Client is not connected"), [])
  else
    let pattern := keyPattern env.schemaName entityId
    let keys := nativeKeys s.store pattern
    if keys = [] then
      (.error (.base (ErrorRegistry.createError .ENTITY_NOT_FOUND)),
        [.keysScan pattern])
    else
      match env.repoFetch entityId with
      | .error msg =>
        (.error (.plain msg), [.keysScan pattern, .repoFetchCall entityId])
      | .ok none =>
        (.error (.base (ErrorRegistry.createError .ENTITY_NOT_FOUND)),
          [.keysScan pattern, .repoFetchCall entityId])
      | .ok (some ent) =>
        (.ok { ent with entityId := some entityId },
          [.keysScan pattern, .repoFetchCall entityId])

/-- `TransactionManager.fetch` (transaction.ts:137-193): the try-block and
its catch, which re-raises an `ENTITY_NOT_FOUND` `BaseError` unchanged and
wraps every other failure into `TRANSACTION_ERROR`. It mutates no state. -/
def fetch (env : TMEnv) (s : TMState) (entityId : String) :
    Except BaseError Entity × List Event :=
  match fetchTry env s entityId with
  | (.ok e, tr) => (.ok e, tr)
  | (.error (.base b), tr) =>
    if b.code = .ENTITY_NOT_FOUND then (.error b, tr)
    else (.error (ErrorRegistry.createError .TRANSACTION_ERROR), tr)
  | (.error (.plain _), tr) =>
    (.error (ErrorRegistry.createError .TRANSACTION_ERROR), tr)

/-- The version/timestamp stamping of `save` (transaction.ts:84-88):
`version := (entity.version || 0) + 1`, `lastUpdated := new Date()`. -/
def stampEntity (env : TMEnv) (e : Entity) : Entity :=
  { e with version := some (jsOrZero e.version + 1), lastUpdated := some env.now }

/-- `TransactionManager.save` (transaction.ts:76-130): stamp the entity,
delegate to the repository, merge the repository-assigned `entityId` when
its symbol is present; any failure is wrapped into `TRANSACTION_ERROR`. -/
def save (env : TMEnv) (s : TMState) (e : Entity) :
    Except BaseError Entity × TMState × List Event :=
  if env.connected = false then
    (.error (ErrorRegistry.createError .TRANSACTION_ERROR), s, [])
  else
    let stamped := stampEntity env e
    match env.repoSave stamped s.store with
    | .error _ =>
      (.error (ErrorRegistry.createError .TRANSACTION_ERROR), s, [.repoSaveCall])
    | .ok (rec, symOpt, st) =>
      match symOpt with
      | some sid =>
        (.ok { rec with entityId := some sid }, ⟨st, s.active⟩, [.repoSaveCall])
      | none => (.ok rec, ⟨st, s.active⟩, [.repoSaveCall])

/-- The try-block of `TransactionManager.remove` (transaction.ts:199-240):
fetch to confirm existence, scan and batch-delete the key pattern,
best-effort repository remove (failure only logged), then re-scan and fail
`TRANSACTION_ERROR` when any key survives. -/
def removeTry (env : TMEnv) (s : TMState) (entityId : String) :
    Except Err Unit × TMState × List Event :=
  if env.connected = false then
    (.error (.plain "Client is not connected"), s, [])
  else
    match fetch env s entityId with
    | (.error b, tr) => (.error (.base b), s, tr)
    | (.ok _, tr) =>
      let pattern := keyPattern env.schemaName entityId
      let keys := nativeKeys s.store pattern
      let tr1 := tr ++ [Event.keysScan pattern]
      let store1 := if keys = [] then s.store
        else s.store.filter (fun k => decide (k ∉ keys))
      let tr2 := if keys = [] then tr1 else tr1 ++ [Event.delKeys keys]
      let store2 := match env.repoRemove entityId store1 with
        | .ok st => st
        | .error _ => store1
      let tr3 := tr2 ++ [Event.repoRemoveCall entityId]
      let remaining := nativeKeys store2 pattern
      let tr4 := tr3 ++ [Event.keysScan pattern]
      if remaining = [] then (.ok (), ⟨store2, s.active⟩, tr4)
      else
        (.error (.base (ErrorRegistry.createError .TRANSACTION_ERROR)),
          ⟨store2, s.active⟩, tr4)

/-- `TransactionManager.remove` (transaction.ts:199-253): the try-block and
its catch, which wraps every failure — including the inner fetch's
`ENTITY_NOT_FOUND` — into `TRANSACTION_ERROR`. -/
def remove (env : TMEnv) (s : TMState) (entityId : String) :
    Except BaseError Unit × TMState × List Event :=
  match removeTry env s entityId with
  | (.ok _, s1, tr) => (.ok (), s1, tr)
  | (.error _, s1, tr) =>
    (.error (ErrorRegistry.createError .TRANSACTION_ERROR), s1, tr)

/-- `TransactionManager.beginTransaction` (transaction.ts:257-284): fails
`TRANSACTION_ERROR` when already active (or when not connected), otherwise
starts a multi batch and sets the envelope to ACTIVE. -/
def beginTransaction (env : TMEnv) (s : TMState) :
    Except BaseError Unit × TMState × List Event :=
  if env.connected = false then
    (.error (ErrorRegistry.createError .TRANSACTION_ERROR), s, [])
  else if s.active then
    (.error (ErrorRegistry.createError .TRANSACTION_ERROR), s, [])
  else (.ok (), { s with active := true }, [.multiCall])

/-- `TransactionManager.commitTransaction` (transaction.ts:289-309): fails
`TRANSACTION_COMMIT_ERROR` when no transaction is active or when `exec`
fails; the envelope is reset to IDLE only after `exec` succeeds. -/
def commitTransaction (env : TMEnv) (s : TMState) :
    Except BaseError Unit × TMState × List Event :=
  if s.active = false then
    (.error (ErrorRegistry.createError .TRANSACTION_COMMIT_ERROR), s, [])
  else
    match env.exec with
    | .ok _ => (.ok (), { s with active := false }, [.execCall])
    | .error _ =>
      (.error (ErrorRegistry.createError .TRANSACTION_COMMIT_ERROR), s, [.execCall])

/-- `TransactionManager.rollbackTransaction` (transaction.ts:314-338): fails
`TRANSACTION_ROLLBACK_ERROR` when no transaction is active or when
`discard` fails; the envelope is reset to IDLE only after `discard`
succeeds. -/
def rollbackTransaction (env : TMEnv) (s : TMState) :
    Except BaseError Unit × TMState × List Event :=
  if s.active = false then
    (.error (ErrorRegistry.createError .TRANSACTION_ROLLBACK_ERROR), s, [])
  else
    match env.discard with
    | .ok _ => (.ok (), { s with active := false }, [.discardCall])
    | .error _ =>
      (.error (ErrorRegistry.createError .TRANSACTION_ROLLBACK_ERROR), s,
        [.discardCall])

end TransactionManager

/-! ## Persistence manager (src/core/persistence.ts) -/

/-- `RDBOptions` (src/interfaces, unnamed part): a required numeric
`saveFrequency`. -/
structure RDBOptions where
  saveFrequency : JSNum
deriving DecidableEq, Repr

/-- `AOFOptions`: the `appendfsync` sync mode; the reconstruction path casts
an arbitrary store string into this field, so it is a string here, with the
enum values listed in `aofSyncValues`. -/
structure AOFOptions where
  appendfsync : String
deriving DecidableEq, Repr

/-- The `AOFSyncOption` enum values. -/
def aofSyncValues : List String := ["always", "everysec", "no"]

/-- `PersistenceConfig`: the declared type is the `PersistenceType` enum,
but validation explicitly guards against unknown kinds arriving through
untyped callers, so the kind is a string here, with the enum values listed
in `persistenceTypeValues`. -/
structure PersistenceConfig where
  type : String
  rdbOptions : Option RDBOptions
  aofOptions : Option AOFOptions
deriving DecidableEq, Repr

/-- `Object.values(PersistenceType)`. -/
def persistenceTypeValues : List String := ["NONE", "RDB", "AOF"]

/-- The three store configuration values the manager reads and writes. -/
structure ConfigKV where
  save : String
  appendonly : String
  appendfsync : String
deriving DecidableEq, Repr

/-- Mutable state of a `PersistenceManager`: the store's configuration and
the manager's own `config` field. -/
structure PMState where
  kv : ConfigKV
  config : PersistenceConfig
deriving DecidableEq, Repr

/-- Environment of a `PersistenceManager`: the native client's connection
status. -/
structure PMEnv where
  isOpen : Bool
deriving DecidableEq, Repr

namespace PersistenceManager

/-- `config.rdbOptions?.saveFrequency` is truthy: present and neither `NaN`
nor `0`. -/
def rdbFreqTruthy (c : PersistenceConfig) : Bool :=
  match c.rdbOptions with
  | none => false
  | some o => jsNumTruthy o.saveFrequency

/-- `config.aofOptions?.appendfsync` is truthy: present and non-empty. -/
def aofFsyncTruthy (c : PersistenceConfig) : Bool :=
  match c.aofOptions with
  | none => false
  | some o => decide (o.appendfsync ≠ "")

/-- `PersistenceManager.validatePersistenceConfig` (persistence.ts:138-165):
unknown kind, RDB without a truthy `saveFrequency`, and AOF without a
truthy `appendfsync` each yield `INVALID_CONFIG`, checked in that order. -/
def validatePersistenceConfig (c : PersistenceConfig) : Option BaseError :=
  if persistenceTypeValues.contains c.type = false then
    some (ErrorRegistry.createError .INVALID_CONFIG)
  else if c.type = "RDB" ∧ rdbFreqTruthy c = false then
    some (ErrorRegistry.createError .INVALID_CONFIG)
  else if c.type = "AOF" ∧ aofFsyncTruthy c = false then
    some (ErrorRegistry.createError .INVALID_CONFIG)
  else none

/-- The `"<saveFrequency ?? 3600> 1"` value written for an RDB policy
(persistence.ts:184-187). -/
def rdbSaveValue (c : PersistenceConfig) : String :=
  (match c.rdbOptions with
   | none => natToDecString 3600
   | some o => jsNumToString o.saveFrequency) ++ " 1"

/-- `PersistenceManager.applyPersistenceConfig` (persistence.ts:167-232):
write the snapshot interval (or clear it), then the append-log toggle, then
— for AOF with options — the sync mode; failure (a closed connection here)
is wrapped into `PERSISTENCE_OPERATION_ERROR`. -/
def applyPersistenceConfig (env : PMEnv) (kv : ConfigKV) (cfg : PersistenceConfig) :
    Except BaseError Unit × ConfigKV × List Event :=
  if env.isOpen = false then
    (.error (ErrorRegistry.createError .PERSISTENCE_OPERATION_ERROR), kv, [])
  else
    let saveVal := if cfg.type = "RDB" then rdbSaveValue cfg else ""
    let aoVal := if cfg.type = "AOF" then "yes" else "no"
    let kv2 : ConfigKV := { kv with save := saveVal, appendonly := aoVal }
    let tr2 := [Event.configSet "save" saveVal, Event.configSet "appendonly" aoVal]
    if cfg.type = "AOF" then
      match cfg.aofOptions with
      | some o =>
        (.ok (), { kv2 with appendfsync := o.appendfsync },
          tr2 ++ [Event.configSet "appendfsync" o.appendfsync])
      | none => (.ok (), kv2, tr2)
    else (.ok (), kv2, tr2)

/-- `PersistenceManager.setPersistence` (persistence.ts:96-136): validate
first (raising before any write), then assign `this.config`, then apply;
a `BaseError` from below is re-raised unchanged. -/
def setPersistence (env : PMEnv) (s : PMState) (cfg : PersistenceConfig) :
    Except BaseError Unit × PMState × List Event :=
  match validatePersistenceConfig cfg with
  | some e => (.error e, s, [])
  | none =>
    match applyPersistenceConfig env s.kv cfg with
    | (.ok _, kv1, tr) => (.ok (), ⟨kv1, cfg⟩, tr)
    | (.error b, kv1, tr) => (.error b, ⟨kv1, cfg⟩, tr)

/-- `PersistenceManager.getCurrentConfig` (persistence.ts:234-290): read the
three configuration values and reconstruct the policy with the fixed
precedence — non-empty snapshot interval wins as RDB, else an enabled
append-log toggle as AOF, else NONE. -/
def getCurrentConfig (env : PMEnv) (s : PMState) :
    Except BaseError PersistenceConfig × List Event :=
  if env.isOpen = false then
    (.error (ErrorRegistry.createError .PERSISTENCE_OPERATION_ERROR), [])
  else
    let tr := [Event.configGet "save", Event.configGet "appendonly",
      Event.configGet "appendfsync"]
    if s.kv.save ≠ "" then
      (.ok ⟨"RDB", some ⟨jsParseInt (firstWord s.kv.save)⟩, none⟩, tr)
    else if s.kv.appendonly = "yes" then
      (.ok ⟨"AOF", none, some ⟨s.kv.appendfsync⟩⟩, tr)
    else (.ok ⟨"NONE", none, none⟩, tr)

end PersistenceManager

/-! ## Derived definitions and concrete instances used by the theorems -/

namespace TransactionManager

/-- The repository contract of the spec (§6): `save(record) -> record-with-id`
— the repository echoes the record it was given and assigns an id. -/
def RepoEcho (env : TMEnv) : Prop :=
  ∀ e st, ∃ sid st2, env.repoSave e st = .ok (e, some sid, st2)

/-- `n` successive `save` calls, each feeding the returned entity into the
next call (the update flow of the integration tests). -/
def saveIter (env : TMEnv) : Nat → TMState × Entity → TMState × Entity
  | 0, p => p
  | n + 1, (s, e) =>
    match save env s e with
    | (.ok e1, s1, _) => saveIter env n (s1, e1)
    | (.error _, s1, _) => (s1, e)

end TransactionManager

/-- A policy in one of the three valid shapes of the data model: RDB with a
positive `saveFrequency`, AOF with a sync mode from the enum, or NONE. -/
def wellFormedPolicy (c : PersistenceConfig) : Prop :=
  (∃ f : Int, 0 < f ∧ c = ⟨"RDB", some ⟨some f⟩, none⟩)
  ∨ (∃ m, m ∈ aofSyncValues ∧ c = ⟨"AOF", none, some ⟨m⟩⟩)
  ∨ c = ⟨"NONE", none, none⟩

/-- A bare entity, no reserved field set yet. -/
def entA : Entity := ⟨none, none, none, []⟩

/-- An entity whose `version` is present but `0` (falsy in JS). -/
def entZ : Entity := ⟨some 0, none, none, []⟩

/-- A connected environment whose collaborators all succeed: the repository
echoes records and assigns id `"a1"`, fetch finds `entA`, remove succeeds. -/
def envOk : TMEnv :=
  ⟨"s", true, fun e st => .ok (e, some "a1", st), fun _ => .ok (some entA),
    fun _ st => .ok st, .ok (), .ok (), 7⟩

/-- Like `envOk` but the batch primitives `exec` and `discard` fail. -/
def envFailBatch : TMEnv :=
  { envOk with exec := .error "exec failed", discard := .error "discard failed" }

/-- A persistence environment with an open connection. -/
def envOpen : PMEnv := ⟨true⟩

/-- The NONE policy. -/
def cfgNone : PersistenceConfig := ⟨"NONE", none, none⟩

/-- The RDB policy with `saveFrequency` 3600 from the spec's scenarios. -/
def cfg3600 : PersistenceConfig := ⟨"RDB", some ⟨some 3600⟩, none⟩

/-- An initial persistence state: no snapshotting, no append log. -/
def sP : PMState := ⟨⟨"", "no", "everysec"⟩, cfgNone⟩

/-! ## Decimal printing / parsing round trip -/

theorem isDecDigit_digitChar {d : Nat} (hd : d < 10) :
    isDecDigit (Nat.digitChar d) = true := by
  interval_cases d <;> decide

theorem digitVal_digitChar {d : Nat} (hd : d < 10) :
    digitVal (Nat.digitChar d) = d := by
  interval_cases d <;> decide

theorem mem_natDecCharsAux {fuel : Nat} :
    ∀ {n : Nat}, ∀ c ∈ natDecCharsAux fuel n, isDecDigit c = true := by
  induction fuel with
  | zero => intro n c hc; simp [natDecCharsAux] at hc
  | succ fuel ih =>
    intro n c hc
    by_cases hn : n = 0
    · simp [natDecCharsAux, hn] at hc
    · simp only [natDecCharsAux, if_neg hn, List.mem_append,
        List.mem_singleton] at hc
      rcases hc with hc | hc
      · exact ih c hc
      · subst hc; exact isDecDigit_digitChar (Nat.mod_lt _ (by omega))

theorem mem_natDecChars {n : Nat} : ∀ c ∈ natDecChars n, isDecDigit c = true := by
  intro c hc
  by_cases hn : n = 0
  · simp [natDecChars, hn] at hc; subst hc; decide
  · simp only [natDecChars, if_neg hn] at hc
    exact mem_natDecCharsAux c hc

theorem isDecDigit_bounds {c : Char} (h : isDecDigit c = true) :
    48 ≤ c.toNat ∧ c.toNat ≤ 57 := by
  simpa [isDecDigit] using h

theorem isDecDigit_not_whitespace {c : Char} (h : isDecDigit c = true) :
    c.isWhitespace = false := by
  have hb := isDecDigit_bounds h
  have h32 : c ≠ ' ' := by intro h1; subst h1; exact absurd hb (by decide)
  have h9 : c ≠ '\t' := by intro h1; subst h1; exact absurd hb (by decide)
  have h13 : c ≠ '\r' := by intro h1; subst h1; exact absurd hb (by decide)
  have h10 : c ≠ '\n' := by intro h1; subst h1; exact absurd hb (by decide)
  simp [Char.isWhitespace, h32, h9, h13, h10]

theorem isDecDigit_ne_minus {c : Char} (h : isDecDigit c = true) : c ≠ '-' := by
  intro h1; subst h1; exact absurd h (by decide)

theorem isDecDigit_ne_plus {c : Char} (h : isDecDigit c = true) : c ≠ '+' := by
  intro h1; subst h1; exact absurd h (by decide)

theorem isDecDigit_bne_space {c : Char} (h : isDecDigit c = true) :
    (c != ' ') = true := by
  have hb := isDecDigit_bounds h
  simp only [bne_iff_ne, ne_eq]
  intro h1; subst h1; exact absurd hb (by decide)

theorem takeWhile_append_all {p : Char → Bool} {l1 l2 : List Char}
    (h : ∀ c ∈ l1, p c = true) :
    (l1 ++ l2).takeWhile p = l1 ++ l2.takeWhile p := by
  induction l1 with
  | nil => simp
  | cons a l ih =>
    have ha : p a = true := h a (by simp)
    simp only [List.cons_append, List.takeWhile_cons, ha, if_pos]
    rw [ih (fun c hc => h c (by simp [hc]))]

theorem natDecCharsAux_ne_nil {fuel n : Nat} (hn : n ≠ 0) (hf : 1 ≤ fuel) :
    natDecCharsAux fuel n ≠ [] := by
  match fuel, hf with
  | fuel + 1, _ =>
    simp only [natDecCharsAux, if_neg hn]
    intro h
    exact absurd (List.append_eq_nil.mp h).2 (by simp)

theorem foldl_natDecCharsAux {fuel : Nat} :
    ∀ {n a : Nat}, n ≤ fuel →
      (natDecCharsAux fuel n).foldl (fun acc c => 10 * acc + digitVal c) a
        = a * 10 ^ (natDecCharsAux fuel n).length + n := by
  induction fuel with
  | zero =>
    intro n a hn
    have : n = 0 := Nat.le_zero.mp hn
    simp [natDecCharsAux, this]
  | succ fuel ih =>
    intro n a hn
    by_cases h0 : n = 0
    · simp [natDecCharsAux, h0]
    · have hdiv : n / 10 ≤ fuel := by
        have := Nat.div_lt_self (Nat.pos_of_ne_zero h0) (by omega : 1 < 10)
        omega
      simp only [natDecCharsAux, if_neg h0, List.foldl_append, List.foldl_cons,
        List.foldl_nil, List.length_append, List.length_singleton]
      rw [ih hdiv, digitVal_digitChar (Nat.mod_lt _ (by omega))]
      rw [pow_succ]
      have := Nat.div_add_mod n 10
      ring_nf
      omega

theorem parseDigitRun_natDecChars (n : Nat) :
    parseDigitRun (natDecChars n) = some n := by
  by_cases h0 : n = 0
  · subst h0; decide
  · have hne : natDecChars n ≠ [] := by
      simp only [natDecChars, if_neg h0]
      exact natDecCharsAux_ne_nil h0 (Nat.pos_of_ne_zero h0)
    have hall : ∀ c ∈ natDecChars n, isDecDigit c = true := mem_natDecChars
    have htake : (natDecChars n).takeWhile isDecDigit = natDecChars n := by
      have := @takeWhile_append_all isDecDigit (natDecChars n) [] hall
      simpa using this
    have hfold : (natDecChars n).foldl (fun acc c => 10 * acc + digitVal c) 0 = n := by
      simp only [natDecChars, if_neg h0]
      have := @foldl_natDecCharsAux n n 0 le_rfl
      simpa using this
    obtain ⟨d, ds, hcons⟩ := List.exists_cons_of_ne_nil hne
    rw [parseDigitRun, htake, hcons]
    show some (List.foldl (fun a c => 10 * a + digitVal c) 0 (d :: ds)) = some n
    rw [← hcons, hfold]

theorem jsParseInt_natToDecString (n : Nat) :
    jsParseInt (natToDecString n) = some (n : Int) := by
  have hdata : (natToDecString n).data = natDecChars n := rfl
  have hne : natDecChars n ≠ [] := by
    by_cases h0 : n = 0
    · subst h0; decide
    · simp only [natDecChars, if_neg h0]
      exact natDecCharsAux_ne_nil h0 (Nat.pos_of_ne_zero h0)
  obtain ⟨c, cs, hcons⟩ := List.exists_cons_of_ne_nil hne
  have hc : isDecDigit c = true := mem_natDecChars c (by rw [hcons]; simp)
  have hdrop : (natDecChars n).dropWhile Char.isWhitespace = natDecChars n := by
    rw [hcons, List.dropWhile_cons, isDecDigit_not_whitespace hc]
    simp
  rw [jsParseInt, hdata, hdrop, hcons]
  simp only [if_neg (isDecDigit_ne_minus hc), if_neg (isDecDigit_ne_plus hc)]
  rw [← hcons, parseDigitRun_natDecChars]
  rfl

theorem firstWord_decString_append (n : Nat) :
    firstWord (natToDecString n ++ " 1") = natToDecString n := by
  have hdata : (natToDecString n ++ " 1").data = natDecChars n ++ [' ', '1'] := by
    rw [String.data_append]; rfl
  have hall : ∀ c ∈ natDecChars n, (c != ' ') = true :=
    fun c hc => isDecDigit_bne_space (mem_natDecChars c hc)
  rw [firstWord, hdata, takeWhile_append_all hall]
  have h1 : ([' ', '1'] : List Char).takeWhile (fun c => c != ' ') = [] := by decide
  rw [h1, List.append_nil]
  rfl

/-! ## Helper lemmas about the transaction manager -/

@[simp]
theorem createError_code (c : ErrorCode) : (ErrorRegistry.createError c).code = c := rfl

namespace TransactionManager

/-- With a connected client and an empty key scan, `fetch` raises
`ENTITY_NOT_FOUND` after a single scan. -/
theorem fetch_scan_empty {env : TMEnv} {s : TMState} {id : String}
    (hc : env.connected = true)
    (hk : nativeKeys s.store (keyPattern env.schemaName id) = []) :
    fetch env s id = (.error (ErrorRegistry.createError .ENTITY_NOT_FOUND),
      [Event.keysScan (keyPattern env.schemaName id)]) := by
  simp [fetch, fetchTry, hc, hk]

/-- A successful `fetch` implies the key scan was non-empty. -/
theorem fetch_ok_scan_ne_nil {env : TMEnv} {s : TMState} {id : String}
    {e : Entity} {tr : List Event} (h : fetch env s id = (.ok e, tr)) :
    nativeKeys s.store (keyPattern env.schemaName id) ≠ [] := by
  intro hk
  cases hcon : env.connected with
  | false => simp [fetch, fetchTry, hcon] at h
  | true => rw [fetch_scan_empty hcon hk] at h; simp at h

/-- A successful `fetch` implies the client was connected. -/
theorem fetch_ok_connected {env : TMEnv} {s : TMState} {id : String}
    {e : Entity} {tr : List Event} (h : fetch env s id = (.ok e, tr)) :
    env.connected = true := by
  cases hcon : env.connected with
  | false => simp [fetch, fetchTry, hcon] at h
  | true => rfl

/-- Deleting every scanned key leaves no key matching the pattern. -/
theorem nativeKeys_filter_out (store : List String) (pattern : String) :
    nativeKeys (store.filter (fun k => decide (k ∉ nativeKeys store pattern)))
      pattern = [] := by
  rw [nativeKeys, List.filter_eq_nil_iff]
  intro k hk
  rw [List.mem_filter] at hk
  obtain ⟨hk1, hk2⟩ := hk
  rw [decide_eq_true_eq] at hk2
  intro hp
  exact hk2 (List.mem_filter.mpr ⟨hk1, hp⟩)

/-- Under the repository contract, a connected `save` succeeds and returns
the stamped entity merged with the assigned id. -/
theorem save_ok_of_echo (env : TMEnv) (s : TMState) (e : Entity)
    (hc : env.connected = true) (he : RepoEcho env) :
    ∃ sid st2, save env s e
      = (.ok { stampEntity env e with entityId := some sid },
          ⟨st2, s.active⟩, [Event.repoSaveCall]) := by
  obtain ⟨sid, st2, hs⟩ := he (stampEntity env e) s.store
  exact ⟨sid, st2, by simp [save, hc, hs]⟩

/-- Chained saves under the repository contract: each step adds exactly one
to a present `version`. -/
theorem saveIter_version (env : TMEnv) (hc : env.connected = true)
    (he : RepoEcho env) :
    ∀ n (s : TMState) (e : Entity) (k : Int), e.version = some k →
      ((saveIter env n (s, e)).2).version = some (k + n) := by
  intro n
  induction n with
  | zero => intro s e k hk; simpa [saveIter] using hk
  | succ n ih =>
    intro s e k hk
    obtain ⟨sid, st2, hs⟩ := save_ok_of_echo env s e hc he
    rw [saveIter, hs]
    have hv : ({ stampEntity env e with entityId := some sid } : Entity).version
        = some (k + 1) := by
      simp [stampEntity, jsOrZero, hk]
    rw [ih _ _ (k + 1) hv]
    congr 1
    push_cast
    ring

/-- Every failing `remove` fails with `TRANSACTION_ERROR`: the catch wraps
every error uniformly. -/
theorem remove_error_is_transaction_error (env : TMEnv) (s : TMState)
    (id : String) :
    ∀ b, (remove env s id).1 = .error b →
      b = ErrorRegistry.createError .TRANSACTION_ERROR := by
  intro b hb
  rcases hrt : removeTry env s id with ⟨res, s1, tr⟩
  cases res with
  | ok _ => rw [remove, hrt] at hb; simp at hb
  | error _ =>
    rw [remove, hrt] at hb
    exact (Except.error.injEq _ _).mp hb.symm

/-- What a successful `removeTry` guarantees: the client was connected, the
final key scan is empty, the envelope flag is untouched, and the trace ends
with the verification re-scan. -/
theorem removeTry_ok_inv {env : TMEnv} {s : TMState} {id : String}
    {s2 : TMState} {tr : List Event}
    (h : removeTry env s id = (.ok (), s2, tr)) :
    env.connected = true
    ∧ nativeKeys s2.store (keyPattern env.schemaName id) = []
    ∧ s2.active = s.active
    ∧ ∃ tr0, tr = tr0 ++ [Event.keysScan (keyPattern env.schemaName id)] := by
  cases hcon : env.connected with
  | false => rw [removeTry] at h; simp [hcon] at h
  | true =>
    rcases hfe : fetch env s id with ⟨fres, ftr⟩
    cases fres with
    | error b => rw [removeTry] at h; simp [hcon, hfe] at h
    | ok e =>
      rw [removeTry] at h
      simp only [hcon, Bool.true_eq_false, if_false, hfe] at h
      refine ⟨rfl, ?_⟩
      split at h <;> split at h
      · rename_i hrem
        simp only [Prod.mk.injEq] at h
        obtain ⟨-, hs2, htr⟩ := h
        subst hs2
        subst htr
        exact ⟨hrem, rfl,
          ftr ++ [Event.keysScan (keyPattern env.schemaName id),
            Event.repoRemoveCall id], by simp⟩
      · simp at h
      · rename_i hrem
        simp only [Prod.mk.injEq] at h
        obtain ⟨-, hs2, htr⟩ := h
        subst hs2
        subst htr
        exact ⟨hrem, rfl,
          ftr ++ [Event.keysScan (keyPattern env.schemaName id),
            Event.delKeys (nativeKeys s.store (keyPattern env.schemaName id)),
            Event.repoRemoveCall id], by simp⟩
      · simp at h

end TransactionManager

/-! ## Claim theorems: transaction manager -/

/-- C1: `remove` performs a verified delete. Every failing `remove` fails
with `TRANSACTION_ERROR` (in particular when keys survive the verification
re-scan); a repository-remove failure alone does not fail the operation
(best effort, only logged); and whenever `remove` returns successfully, the
trace ends with the verification re-scan, the resulting key space holds no
key matching `"<schemaName>:<id>*"`, and a subsequent `fetch` of the same
id raises `ENTITY_NOT_FOUND`. -/
theorem remove_verified_delete (env : TMEnv) (s : TMState) (id : String) :
    ((TransactionManager.remove env s id).1 = .ok () →
      TransactionManager.nativeKeys
          ((TransactionManager.remove env s id).2.1).store
          (TransactionManager.keyPattern env.schemaName id) = []
      ∧ (TransactionManager.fetch env
            ((TransactionManager.remove env s id).2.1) id).1
          = .error (ErrorRegistry.createError .ENTITY_NOT_FOUND)
      ∧ ∃ tr0, (TransactionManager.remove env s id).2.2
          = tr0 ++ [Event.keysScan (TransactionManager.keyPattern env.schemaName id)])
    ∧ (∀ b, (TransactionManager.remove env s id).1 = .error b →
        b = ErrorRegistry.createError .TRANSACTION_ERROR)
    ∧ (∀ e1 ftr m, TransactionManager.fetch env s id = (.ok e1, ftr) →
        env.repoRemove id (s.store.filter (fun k => decide (k ∉
            TransactionManager.nativeKeys s.store
              (TransactionManager.keyPattern env.schemaName id)))) = .error m →
        (TransactionManager.remove env s id).1 = .ok ()) := by
  refine ⟨?_, TransactionManager.remove_error_is_transaction_error env s id, ?_⟩
  · intro h
    rcases hrt : TransactionManager.removeTry env s id with ⟨res, s2, tr⟩
    cases res with
    | error b =>
      rw [TransactionManager.remove, hrt] at h
      simp at h
    | ok u =>
      cases u
      have hre : TransactionManager.remove env s id = (.ok (), s2, tr) := by
        rw [TransactionManager.remove, hrt]
      obtain ⟨hcon, hscan, hact, tr0, htr⟩ := TransactionManager.removeTry_ok_inv hrt
      rw [hre]
      refine ⟨hscan, ?_, ⟨tr0, htr⟩⟩
      rw [TransactionManager.fetch_scan_empty hcon hscan]
  · intro e1 ftr m hfe hr
    have hcon := TransactionManager.fetch_ok_connected hfe
    have hkeys := TransactionManager.fetch_ok_scan_ne_nil hfe
    have hfilter := TransactionManager.nativeKeys_filter_out s.store
      (TransactionManager.keyPattern env.schemaName id)
    simp only [TransactionManager.remove, TransactionManager.removeTry, hcon,
      Bool.true_eq_false, if_false, hfe, if_neg hkeys, hr, hfilter]
    simp

/-- C1 witness: a concrete successful remove on a one-key store leaves an
empty scan, and the subsequent fetch raises `ENTITY_NOT_FOUND`. -/
theorem remove_verified_delete_witness :
    TransactionManager.nativeKeys
        ((TransactionManager.remove envOk ⟨["s:a1"], false⟩ "a").2.1).store
        (TransactionManager.keyPattern "s" "a") = []
    ∧ (TransactionManager.fetch envOk
          ((TransactionManager.remove envOk ⟨["s:a1"], false⟩ "a").2.1) "a").1
        = .error (ErrorRegistry.createError .ENTITY_NOT_FOUND) := by
  have h := (remove_verified_delete envOk ⟨["s:a1"], false⟩ "a").1 rfl
  exact ⟨h.1, h.2.1⟩

/-- C2 counterexample: on an id with an empty key scan, `remove` raises
`TRANSACTION_ERROR`, not `ENTITY_NOT_FOUND` — remove's catch-all re-wraps
the inner fetch's typed not-found error. -/
theorem remove_absent_not_found_cex :
    (TransactionManager.remove envOk ⟨[], false⟩ "a").1
        = .error (ErrorRegistry.createError .TRANSACTION_ERROR)
    ∧ (ErrorRegistry.createError .TRANSACTION_ERROR).code
        ≠ ErrorCode.ENTITY_NOT_FOUND := by
  exact ⟨rfl, by decide⟩

/-- C2 (amended): for every id whose key scan is empty, the inner `fetch`
raises `ENTITY_NOT_FOUND`, but `remove` re-wraps it and raises
`TRANSACTION_ERROR` across its boundary. -/
theorem remove_absent_wraps_not_found (env : TMEnv) (s : TMState) (id : String)
    (hempty : TransactionManager.nativeKeys s.store
        (TransactionManager.keyPattern env.schemaName id) = []) :
    (TransactionManager.remove env s id).1
        = .error (ErrorRegistry.createError .TRANSACTION_ERROR)
    ∧ (env.connected = true →
        (TransactionManager.fetch env s id).1
          = .error (ErrorRegistry.createError .ENTITY_NOT_FOUND)) := by
  constructor
  · cases hcon : env.connected with
    | false => simp [TransactionManager.remove, TransactionManager.removeTry, hcon]
    | true =>
      simp [TransactionManager.remove, TransactionManager.removeTry, hcon,
        TransactionManager.fetch_scan_empty hcon hempty]
  · intro hc
    rw [TransactionManager.fetch_scan_empty hc hempty]

/-- C2 witness: the amended behaviour at a concrete empty store. -/
theorem remove_absent_wraps_not_found_witness :
    (TransactionManager.remove envOk ⟨[], false⟩ "b").1
        = .error (ErrorRegistry.createError .TRANSACTION_ERROR)
    ∧ (TransactionManager.fetch envOk ⟨[], false⟩ "b").1
        = .error (ErrorRegistry.createError .ENTITY_NOT_FOUND) := by
  have h := remove_absent_wraps_not_found envOk ⟨[], false⟩ "b" rfl
  exact ⟨h.1, h.2 rfl⟩

/-- C3 counterexample: `commitTransaction` while IDLE raises
`TRANSACTION_COMMIT_ERROR`, whose code is not `TRANSACTION_ERROR` as the
claim states. -/
theorem commit_idle_code_cex :
    (TransactionManager.commitTransaction envOk ⟨[], false⟩).1
        = .error (ErrorRegistry.createError .TRANSACTION_COMMIT_ERROR)
    ∧ (ErrorRegistry.createError .TRANSACTION_COMMIT_ERROR).code
        ≠ ErrorCode.TRANSACTION_ERROR := by
  exact ⟨rfl, by decide⟩

/-- C3 (amended): every invalid transition of the envelope raises (never
silently no-ops) and leaves the state unchanged, but with per-operation
codes: `begin` while ACTIVE raises `TRANSACTION_ERROR`, `commit` while IDLE
raises `TRANSACTION_COMMIT_ERROR`, and `rollback` while IDLE raises
`TRANSACTION_ROLLBACK_ERROR`. -/
theorem envelope_invalid_transitions (env : TMEnv) (s : TMState) :
    (s.active = true →
      (TransactionManager.beginTransaction env s).1
          = .error (ErrorRegistry.createError .TRANSACTION_ERROR)
      ∧ (TransactionManager.beginTransaction env s).2.1 = s)
    ∧ (s.active = false →
      (TransactionManager.commitTransaction env s).1
          = .error (ErrorRegistry.createError .TRANSACTION_COMMIT_ERROR)
      ∧ (TransactionManager.commitTransaction env s).2.1 = s
      ∧ (TransactionManager.rollbackTransaction env s).1
          = .error (ErrorRegistry.createError .TRANSACTION_ROLLBACK_ERROR)
      ∧ (TransactionManager.rollbackTransaction env s).2.1 = s) := by
  constructor
  · intro h
    cases hc : env.connected <;>
      simp [TransactionManager.beginTransaction, hc, h]
  · intro h
    simp [TransactionManager.commitTransaction,
      TransactionManager.rollbackTransaction, h]

/-- C3 witness: the amended codes at concrete states. -/
theorem envelope_invalid_transitions_witness :
    (TransactionManager.beginTransaction envOk ⟨[], true⟩).1
        = .error (ErrorRegistry.createError .TRANSACTION_ERROR)
    ∧ (TransactionManager.commitTransaction envOk ⟨[], false⟩).1
        = .error (ErrorRegistry.createError .TRANSACTION_COMMIT_ERROR)
    ∧ (TransactionManager.rollbackTransaction envOk ⟨[], false⟩).1
        = .error (ErrorRegistry.createError .TRANSACTION_ROLLBACK_ERROR) :=
  ⟨((envelope_invalid_transitions envOk ⟨[], true⟩).1 rfl).1,
   ((envelope_invalid_transitions envOk ⟨[], false⟩).2 rfl).1,
   ((envelope_invalid_transitions envOk ⟨[], false⟩).2 rfl).2.2.1⟩

/-- C9: whenever `commitTransaction` or `rollbackTransaction` raises, the
envelope flag afterwards equals the flag before the call — it is reset to
IDLE only after the transport call returns successfully. -/
theorem batch_failure_preserves_envelope (env : TMEnv) (s : TMState) :
    (∀ b, (TransactionManager.commitTransaction env s).1 = .error b →
      ((TransactionManager.commitTransaction env s).2.1).active = s.active)
    ∧ (∀ b, (TransactionManager.rollbackTransaction env s).1 = .error b →
      ((TransactionManager.rollbackTransaction env s).2.1).active = s.active) := by
  constructor
  · intro b hb
    cases ha : s.active with
    | false => simp [TransactionManager.commitTransaction, ha]
    | true =>
      cases hx : env.exec with
      | ok _ => simp [TransactionManager.commitTransaction, ha, hx] at hb
      | error m => simp [TransactionManager.commitTransaction, ha, hx]
  · intro b hb
    cases ha : s.active with
    | false => simp [TransactionManager.rollbackTransaction, ha]
    | true =>
      cases hx : env.discard with
      | ok _ => simp [TransactionManager.rollbackTransaction, ha, hx] at hb
      | error m => simp [TransactionManager.rollbackTransaction, ha, hx]

/-- C9 witness: a failing `exec` leaves the envelope ACTIVE. -/
theorem batch_failure_preserves_envelope_witness :
    ((TransactionManager.commitTransaction envFailBatch ⟨[], true⟩).2.1).active
      = true :=
  (batch_failure_preserves_envelope envFailBatch ⟨[], true⟩).1
    (ErrorRegistry.createError .TRANSACTION_COMMIT_ERROR) rfl

/-- C5: `fetch` first scans the key pattern (the scan is the first transport
call); an empty scan raises `ENTITY_NOT_FOUND` without calling the
repository; a repository miss on a non-empty scan also raises
`ENTITY_NOT_FOUND`; and a repository hit returns the record merged with the
entity id. -/
theorem fetch_spec (env : TMEnv) (s : TMState) (id : String)
    (hc : env.connected = true) :
    ((TransactionManager.fetch env s id).2).head?
        = some (Event.keysScan (TransactionManager.keyPattern env.schemaName id))
    ∧ (TransactionManager.nativeKeys s.store
          (TransactionManager.keyPattern env.schemaName id) = [] →
        (TransactionManager.fetch env s id).1
          = .error (ErrorRegistry.createError .ENTITY_NOT_FOUND)
        ∧ Event.repoFetchCall id ∉ (TransactionManager.fetch env s id).2)
    ∧ (TransactionManager.nativeKeys s.store
          (TransactionManager.keyPattern env.schemaName id) ≠ [] →
        env.repoFetch id = .ok none →
        (TransactionManager.fetch env s id).1
          = .error (ErrorRegistry.createError .ENTITY_NOT_FOUND))
    ∧ (∀ e1, TransactionManager.nativeKeys s.store
          (TransactionManager.keyPattern env.schemaName id) ≠ [] →
        env.repoFetch id = .ok (some e1) →
        (TransactionManager.fetch env s id).1
          = .ok { e1 with entityId := some id }) := by
  refine ⟨?_, ?_, ?_, ?_⟩
  · by_cases hk : TransactionManager.nativeKeys s.store
        (TransactionManager.keyPattern env.schemaName id) = []
    · rw [TransactionManager.fetch_scan_empty hc hk]
      rfl
    · cases hr : env.repoFetch id with
      | error m =>
        simp [TransactionManager.fetch, TransactionManager.fetchTry, hc, hk, hr]
      | ok o =>
        cases o <;>
          simp [TransactionManager.fetch, TransactionManager.fetchTry, hc, hk, hr]
  · intro hk
    rw [TransactionManager.fetch_scan_empty hc hk]
    simp
  · intro hk hr
    simp [TransactionManager.fetch, TransactionManager.fetchTry, hc, hk, hr]
  · intro e1 hk hr
    simp [TransactionManager.fetch, TransactionManager.fetchTry, hc, hk, hr]

/-- C5 witness: a hit on a one-key store returns the record with its id, and
an empty store raises `ENTITY_NOT_FOUND` without a repository call. -/
theorem fetch_spec_witness :
    (TransactionManager.fetch envOk ⟨["s:a1"], false⟩ "a").1
        = .ok { entA with entityId := some "a" }
    ∧ (TransactionManager.fetch envOk ⟨[], false⟩ "a").1
        = .error (ErrorRegistry.createError .ENTITY_NOT_FOUND) :=
  ⟨(fetch_spec envOk ⟨["s:a1"], false⟩ "a" rfl).2.2.2 entA (by decide) rfl,
   ((fetch_spec envOk ⟨[], false⟩ "a" rfl).2.1 rfl).1⟩

/-- C4: `save` returns the input entity stamped with
`version = (version || 0) + 1` and `lastUpdated = now`, merged with the
repository-assigned id; consequently, chaining saves (each feeding the
returned entity into the next) from an entity without a version yields
`version = N` after the Nth save. -/
theorem save_spec (env : TMEnv) (s : TMState) (e : Entity)
    (hc : env.connected = true) (he : TransactionManager.RepoEcho env) :
    (∃ sid, (TransactionManager.save env s e).1
        = .ok { TransactionManager.stampEntity env e with entityId := some sid })
    ∧ (∀ f, (TransactionManager.save env s e).1 = .ok f →
        f.version = some (jsOrZero e.version + 1) ∧ f.lastUpdated = some env.now)
    ∧ (e.version = none → ∀ n : Nat, 1 ≤ n →
        ((TransactionManager.saveIter env n (s, e)).2).version = some (n : Int)) := by
  obtain ⟨sid, st2, hs⟩ := TransactionManager.save_ok_of_echo env s e hc he
  refine ⟨⟨sid, by rw [hs]⟩, ?_, ?_⟩
  · intro f hf
    rw [hs] at hf
    simp only [Except.ok.injEq] at hf
    subst hf
    exact ⟨rfl, rfl⟩
  · intro hv n hn
    obtain ⟨m, rfl⟩ : ∃ m, n = m + 1 := ⟨n - 1, by omega⟩
    rw [TransactionManager.saveIter, hs]
    have hv1 : ({ TransactionManager.stampEntity env e with
        entityId := some sid } : Entity).version = some 1 := by
      simp [TransactionManager.stampEntity, jsOrZero, hv]
    rw [TransactionManager.saveIter_version env hc he m _ _ 1 hv1]
    congr 1
    push_cast
    ring

/-- C4 witness: three chained saves from a fresh entity yield version 3. -/
theorem save_spec_witness :
    ((TransactionManager.saveIter envOk 3 (⟨[], false⟩, entA)).2).version
      = some 3 := by
  have h := (save_spec envOk ⟨[], false⟩ entA rfl
    (fun _ st => ⟨"a1", st, rfl⟩)).2.2 rfl 3 (by omega)
  simpa using h

/-- C10: the version `save` returns is computed solely from its entity
argument — equal arguments yield equal versions regardless of the state,
and a falsy input version (absent or `0`) always yields version 1. -/
theorem save_version_from_argument (env : TMEnv) (s1 s2 : TMState) (e : Entity)
    (hc : env.connected = true) (he : TransactionManager.RepoEcho env) :
    (∀ f1 f2, (TransactionManager.save env s1 e).1 = .ok f1 →
        (TransactionManager.save env s2 e).1 = .ok f2 →
        f1.version = f2.version)
    ∧ ((e.version = none ∨ e.version = some 0) →
        ∀ f, (TransactionManager.save env s1 e).1 = .ok f →
          f.version = some 1) := by
  obtain ⟨sid1, st1, hs1⟩ := TransactionManager.save_ok_of_echo env s1 e hc he
  obtain ⟨sid2, st2, hs2⟩ := TransactionManager.save_ok_of_echo env s2 e hc he
  constructor
  · intro f1 f2 h1 h2
    rw [hs1] at h1
    rw [hs2] at h2
    simp only [Except.ok.injEq] at h1 h2
    subst h1
    subst h2
    rfl
  · intro hv f hf
    rw [hs1] at hf
    simp only [Except.ok.injEq] at hf
    subst hf
    rcases hv with hv | hv <;>
      simp [TransactionManager.stampEntity, jsOrZero, hv]

/-- C10 witness: an entity with version `0` saves to version 1. -/
theorem save_version_from_argument_witness :
    ({ TransactionManager.stampEntity envOk entZ with
        entityId := some "a1" } : Entity).version = some 1 :=
  (save_version_from_argument envOk ⟨[], false⟩ ⟨["x"], true⟩ entZ rfl
    (fun _ st => ⟨"a1", st, rfl⟩)).2 (Or.inr rfl) _ rfl

/-! ## Claim theorems: persistence manager -/

theorem append_space_one_ne_empty (x : String) : x ++ " 1" ≠ "" := by
  intro h
  have hd := congrArg String.data h
  rw [String.data_append, show (" 1").data = [' ', '1'] from rfl,
    show ("" : String).data = [] from rfl] at hd
  exact absurd hd (by simp)

theorem mem_aofSyncValues_ne_empty {m : String} (hm : m ∈ aofSyncValues) :
    m ≠ "" := by
  simp only [aofSyncValues, List.mem_cons, List.not_mem_nil, or_false] at hm
  rcases hm with rfl | rfl | rfl <;> decide

/-- C8: `setPersistence` validates before any side effect: an unknown policy
kind, an RDB policy without a (truthy) `saveFrequency`, or an AOF policy
without a (truthy) sync mode each raise `INVALID_CONFIG`, with the state
untouched and no configuration write issued (empty trace). -/
theorem setPersistence_validates_first (env : PMEnv) (s : PMState)
    (c : PersistenceConfig)
    (hinv : persistenceTypeValues.contains c.type = false
      ∨ (c.type = "RDB" ∧ PersistenceManager.rdbFreqTruthy c = false)
      ∨ (c.type = "AOF" ∧ PersistenceManager.aofFsyncTruthy c = false)) :
    (PersistenceManager.setPersistence env s c).1
        = .error (ErrorRegistry.createError .INVALID_CONFIG)
    ∧ (PersistenceManager.setPersistence env s c).2.1 = s
    ∧ (PersistenceManager.setPersistence env s c).2.2 = [] := by
  have hval : PersistenceManager.validatePersistenceConfig c
      = some (ErrorRegistry.createError .INVALID_CONFIG) := by
    rcases hinv with h1 | ⟨h2a, h2b⟩ | ⟨h3a, h3b⟩
    · rw [PersistenceManager.validatePersistenceConfig, if_pos h1]
    · rw [PersistenceManager.validatePersistenceConfig,
        if_neg (fun h => by rw [h2a] at h; exact absurd h (by decide)),
        if_pos ⟨h2a, h2b⟩]
    · have hnotrdb : ¬(c.type = "RDB"
          ∧ PersistenceManager.rdbFreqTruthy c = false) := by
        rintro ⟨h, -⟩
        rw [h3a] at h
        exact absurd h (by decide)
      rw [PersistenceManager.validatePersistenceConfig,
        if_neg (fun h => by rw [h3a] at h; exact absurd h (by decide)),
        if_neg hnotrdb, if_pos ⟨h3a, h3b⟩]
  simp [PersistenceManager.setPersistence, hval]

/-- C8 witness: an RDB policy with no `rdbOptions` is rejected with
`INVALID_CONFIG` and nothing is written. -/
theorem setPersistence_validates_first_witness :
    (PersistenceManager.setPersistence envOpen sP ⟨"RDB", none, none⟩).1
        = .error (ErrorRegistry.createError .INVALID_CONFIG)
    ∧ (PersistenceManager.setPersistence envOpen sP ⟨"RDB", none, none⟩).2.2
        = [] := by
  have h := setPersistence_validates_first envOpen sP ⟨"RDB", none, none⟩
    (Or.inr (Or.inl ⟨rfl, rfl⟩))
  exact ⟨h.1, h.2.2⟩

/-- C7: `getCurrentConfig` reconstructs the policy with fixed precedence —
a non-empty snapshot-interval value is reported as RDB with the value's
leading integer parsed as `saveFrequency` (even when the append log is also
enabled); otherwise an enabled append-log toggle is reported as AOF with
the current sync mode; otherwise NONE — and the reconstructed policy always
satisfies the policy-shape invariant. -/
theorem getCurrentConfig_precedence (env : PMEnv) (s : PMState)
    (ho : env.isOpen = true) :
    ∃ c, (PersistenceManager.getCurrentConfig env s).1 = .ok c
    ∧ (s.kv.save ≠ "" →
        c = ⟨"RDB", some ⟨jsParseInt (firstWord s.kv.save)⟩, none⟩)
    ∧ (s.kv.save = "" → s.kv.appendonly = "yes" →
        c = ⟨"AOF", none, some ⟨s.kv.appendfsync⟩⟩)
    ∧ (s.kv.save = "" → s.kv.appendonly ≠ "yes" → c = ⟨"NONE", none, none⟩)
    ∧ (c.type = "RDB" → c.rdbOptions.isSome ∧ c.aofOptions = none)
    ∧ (c.type = "AOF" → c.aofOptions.isSome ∧ c.rdbOptions = none)
    ∧ (c.type = "NONE" → c.rdbOptions = none ∧ c.aofOptions = none) := by
  by_cases hs : s.kv.save = ""
  · by_cases ha : s.kv.appendonly = "yes"
    · refine ⟨⟨"AOF", none, some ⟨s.kv.appendfsync⟩⟩, ?_, ?_, ?_, ?_, ?_, ?_, ?_⟩
      · simp [PersistenceManager.getCurrentConfig, ho, hs, ha]
      · intro h; exact absurd hs h
      · intro _ _; rfl
      · intro _ h; exact absurd ha h
      · intro h; exact absurd h (show ¬(("AOF" : String) = "RDB") by decide)
      · intro _; exact ⟨rfl, rfl⟩
      · intro h; exact absurd h (show ¬(("AOF" : String) = "NONE") by decide)
    · refine ⟨⟨"NONE", none, none⟩, ?_, ?_, ?_, ?_, ?_, ?_, ?_⟩
      · simp [PersistenceManager.getCurrentConfig, ho, hs, ha]
      · intro h; exact absurd hs h
      · intro _ h; exact absurd h ha
      · intro _ _; rfl
      · intro h; exact absurd h (show ¬(("NONE" : String) = "RDB") by decide)
      · intro h; exact absurd h (show ¬(("NONE" : String) = "AOF") by decide)
      · intro _; exact ⟨rfl, rfl⟩
  · refine ⟨⟨"RDB", some ⟨jsParseInt (firstWord s.kv.save)⟩, none⟩,
      ?_, ?_, ?_, ?_, ?_, ?_, ?_⟩
    · simp [PersistenceManager.getCurrentConfig, ho, hs]
    · intro _; rfl
    · intro h; exact absurd h hs
    · intro h; exact absurd h hs
    · intro _; exact ⟨rfl, rfl⟩
    · intro h; exact absurd h (show ¬(("RDB" : String) = "AOF") by decide)
    · intro h; exact absurd h (show ¬(("RDB" : String) = "NONE") by decide)

/-- C7 witness: a store with both snapshotting and the append log enabled is
reported as RDB with the parsed leading integer. -/
theorem getCurrentConfig_precedence_witness :
    (PersistenceManager.getCurrentConfig envOpen
        ⟨⟨"3600 1", "yes", "everysec"⟩, cfgNone⟩).1
      = .ok ⟨"RDB", some ⟨some 3600⟩, none⟩ := by
  obtain ⟨c, h1, h2, -⟩ := getCurrentConfig_precedence envOpen
    ⟨⟨"3600 1", "yes", "everysec"⟩, cfgNone⟩ rfl
  have hc := h2 (by decide)
  rw [h1, hc]
  rfl

/-- C6: the round trip of every well-formed policy through the store:
`setPersistence p` succeeds and a following `getCurrentConfig` returns
exactly `p` — RDB with a positive `saveFrequency`, AOF with a sync mode
from the enum, and NONE (reported with no options). -/
theorem setPersistence_roundtrip (env : PMEnv) (s : PMState)
    (c : PersistenceConfig) (ho : env.isOpen = true)
    (hw : wellFormedPolicy c) :
    (PersistenceManager.setPersistence env s c).1 = .ok ()
    ∧ (PersistenceManager.getCurrentConfig env
        (PersistenceManager.setPersistence env s c).2.1).1 = .ok c := by
  rcases hw with ⟨f, hf, rfl⟩ | ⟨m, hm, rfl⟩ | rfl
  · have hval : PersistenceManager.validatePersistenceConfig
        ⟨"RDB", some ⟨some f⟩, none⟩ = none := by
      have hft : PersistenceManager.rdbFreqTruthy
          ⟨"RDB", some ⟨some f⟩, none⟩ = true := by
        simp only [PersistenceManager.rdbFreqTruthy, jsNumTruthy,
          decide_eq_true_eq]
        omega
      rw [PersistenceManager.validatePersistenceConfig,
        if_neg (show ¬(persistenceTypeValues.contains "RDB" = false) by decide),
        if_neg (by simp [hft]),
        if_neg (fun h => absurd h.1 (show ¬(("RDB" : String) = "AOF") by decide))]
    have hstr : PersistenceManager.rdbSaveValue ⟨"RDB", some ⟨some f⟩, none⟩
        = natToDecString f.natAbs ++ " 1" := by
      rw [PersistenceManager.rdbSaveValue]
      simp [jsNumToString, not_lt.mpr (le_of_lt hf)]
    have hne : natToDecString f.natAbs ++ " 1" ≠ "" :=
      append_space_one_ne_empty _
    have hfw : firstWord (natToDecString f.natAbs ++ " 1")
        = natToDecString f.natAbs := firstWord_decString_append _
    have hpi : jsParseInt (natToDecString f.natAbs) = some ((f.natAbs : Nat) : Int) :=
      jsParseInt_natToDecString _
    have habs : ((f.natAbs : Nat) : Int) = f := Int.natAbs_of_nonneg (le_of_lt hf)
    constructor
    · simp [PersistenceManager.setPersistence, hval,
        PersistenceManager.applyPersistenceConfig, ho]
    · simp [PersistenceManager.setPersistence, hval,
        PersistenceManager.applyPersistenceConfig, ho,
        PersistenceManager.getCurrentConfig, hstr, hne, hfw, hpi, habs]
  · have hm' : m ≠ "" := mem_aofSyncValues_ne_empty hm
    have hfs : PersistenceManager.aofFsyncTruthy ⟨"AOF", none, some ⟨m⟩⟩ = true := by
      simp [PersistenceManager.aofFsyncTruthy, hm']
    have hval : PersistenceManager.validatePersistenceConfig
        ⟨"AOF", none, some ⟨m⟩⟩ = none := by
      rw [PersistenceManager.validatePersistenceConfig,
        if_neg (show ¬(persistenceTypeValues.contains "AOF" = false) by decide),
        if_neg (fun h => absurd h.1 (show ¬(("AOF" : String) = "RDB") by decide)),
        if_neg (fun h => by rw [hfs] at h; exact absurd h.2 (by decide))]
    constructor
    · simp [PersistenceManager.setPersistence, hval,
        PersistenceManager.applyPersistenceConfig, ho]
    · simp [PersistenceManager.setPersistence, hval,
        PersistenceManager.applyPersistenceConfig, ho,
        PersistenceManager.getCurrentConfig]
  · have hval : PersistenceManager.validatePersistenceConfig
        ⟨"NONE", none, none⟩ = none := rfl
    constructor
    · simp [PersistenceManager.setPersistence, hval,
        PersistenceManager.applyPersistenceConfig, ho]
    · simp [PersistenceManager.setPersistence, hval,
        PersistenceManager.applyPersistenceConfig, ho,
        PersistenceManager.getCurrentConfig]

/-- C6 witness: the spec scenarios — RDB 3600 and AOF everysec round-trip,
and NONE is reported with no options. -/
theorem setPersistence_roundtrip_witness :
    (PersistenceManager.getCurrentConfig envOpen
        (PersistenceManager.setPersistence envOpen sP cfg3600).2.1).1
      = .ok cfg3600
    ∧ (PersistenceManager.getCurrentConfig envOpen
        (PersistenceManager.setPersistence envOpen sP
          ⟨"AOF", none, some ⟨"everysec"⟩⟩).2.1).1
      = .ok ⟨"AOF", none, some ⟨"everysec"⟩⟩
    ∧ (PersistenceManager.getCurrentConfig envOpen
        (PersistenceManager.setPersistence envOpen sP cfgNone).2.1).1
      = .ok cfgNone :=
  ⟨(setPersistence_roundtrip envOpen sP cfg3600 rfl
      (Or.inl ⟨3600, by norm_num, rfl⟩)).2,
   (setPersistence_roundtrip envOpen sP ⟨"AOF", none, some ⟨"everysec"⟩⟩ rfl
      (Or.inr (Or.inl ⟨"everysec", by decide, rfl⟩))).2,
   (setPersistence_roundtrip envOpen sP cfgNone rfl
      (Or.inr (Or.inr rfl))).2⟩

end RedisEnhanced
